import Mathlib

/-!
Verification of the echo-proxy service core (Go) against its specification.

The Go source is shallowly embedded: each Go function used by a claim is
translated into an executable Lean definition.  External effects (binding a
TCP listener, loading an X.509 key pair, shutting a server down, removing the
hosts-file record) are passed in as explicit oracle arguments, so the pure
control flow of the Go code is what the definitions capture.
-/

namespace LocalProxy

/-- One virtual-host configuration record.  The struct declaration itself is
not part of the extracted sources; its fields are modelled from the spec's
`HostEntry` (`name`, `defaultTarget`, `enableTLS`, `tlsCertFile`,
`tlsKeyFile`) and from every field access in `service/init.go`
(`h.Name`, `h.DefaultTarget`, `h.EnableTLS`, `h.TLSCertFile`, `h.TLSKeyFile`). -/
structure HostConfig where
  name : String
  defaultTarget : String
  enableTLS : Bool
  tlsCertFile : String
  tlsKeyFile : String
deriving DecidableEq

/-! ### Model of Go `net/url.Parse`

Embedded from the Go standard library source (`net/url/url.go`), covering the
behaviour `Parse` exhibits on the strings a `HostConfig.DefaultTarget` can
hold: control-character rejection, fragment and query splitting, scheme
extraction (`getScheme`), the "missing protocol scheme" error, the
"first path segment in URL cannot contain colon" rule for schemeless relative
URLs, authority/host/port parsing with `validOptionalPort`, userinfo
character-set and percent-escape validation, and percent-escape validation of
host, path and fragment.  As in Go, `RawQuery` and `Opaque` are stored as
split off with no validation at all.  Validated components are stored raw
(escapes checked but not decoded); no claim inspects decoded octets, only
which parses succeed and each result's `Scheme`/`Host`. -/

structure URL where
  scheme : String
  opaq : String
  user : String
  host : String
  path : String
  rawQuery : String
  fragment : String
deriving DecidableEq

def emptyURL : URL := ⟨"", "", "", "", "", "", ""⟩

/-- Go `stringContainsCTLByte`: any byte below 0x20 or equal to 0x7f. -/
def containsCTL (s : List Char) : Bool :=
  s.any (fun c => c.toNat < 32 || c.toNat = 127)

/-- Go `split(s, sep, cutc)`: cut at the first occurrence of `sep`;
`cutc = true` drops the separator from the second half. -/
def goSplit (sep : Char) (cutc : Bool) (s : List Char) : List Char × List Char :=
  let before := s.takeWhile (fun c => c ≠ sep)
  let rest := s.dropWhile (fun c => c ≠ sep)
  match rest with
  | [] => (before, [])
  | _ :: tl => (before, if cutc then tl else rest)

def isSchemeLetter (c : Char) : Bool :=
  ('a' ≤ c && c ≤ 'z') || ('A' ≤ c && c ≤ 'Z')

/-- Loop body of Go `getScheme`.  `acc` holds the scheme characters read so
far, `orig` the whole input (returned untouched when no scheme is found).
`none` is the "missing protocol scheme" error. -/
def getSchemeGo (orig : List Char) (acc : List Char) :
    List Char → Option (List Char × List Char)
  | [] => some ([], orig)
  | c :: cs =>
    if isSchemeLetter c then
      getSchemeGo orig (acc ++ [c]) cs
    else if c.isDigit || c = '+' || c = '-' || c = '.' then
      if acc = [] then some ([], orig) else getSchemeGo orig (acc ++ [c]) cs
    else if c = ':' then
      if acc = [] then none else some (acc, cs)
    else
      some ([], orig)

def getScheme (s : List Char) : Option (List Char × List Char) :=
  getSchemeGo s [] s

def isHexDigitCh (c : Char) : Bool :=
  c.isDigit || ('a' ≤ c && c ≤ 'f') || ('A' ≤ c && c ≤ 'F')

def hexVal (c : Char) : Nat :=
  if c.isDigit then c.toNat - 48
  else if 'a' ≤ c && c ≤ 'f' then c.toNat - 87
  else c.toNat - 55

/-- Percent-escape validation performed by Go `unescape` in path/query/
fragment encode modes: every `%` must head two hex digits. -/
def percentOk : List Char → Bool
  | [] => true
  | '%' :: a :: b :: rest => isHexDigitCh a && isHexDigitCh b && percentOk rest
  | '%' :: _ => false
  | _ :: rest => percentOk rest

/-- Percent-escape validation in Go `unescape`'s `encodeHost` mode: besides
two hex digits, an escape whose value is below 0x80 is rejected unless it is
`%25` (hosts may only escape non-ASCII bytes). -/
def percentOkHost : List Char → Bool
  | [] => true
  | '%' :: a :: b :: rest =>
    isHexDigitCh a && isHexDigitCh b &&
      (8 ≤ hexVal a || (a = '2' && b = '5')) && percentOkHost rest
  | '%' :: _ => false
  | _ :: rest => percentOkHost rest

/-- Go `validOptionalPort`: empty, or a colon followed by decimal digits. -/
def validOptionalPort : List Char → Bool
  | [] => true
  | ':' :: digits => digits.all (fun c => '0' ≤ c && c ≤ '9')
  | _ => false

/-- The part of `l` after the last occurrence of `sep`, together with the part
before it, when `sep` occurs (`some (before, after)`); `none` otherwise. -/
def splitAtLast (sep : Char) (l : List Char) : Option (List Char × List Char) :=
  if l.contains sep then
    let after := (l.reverse.takeWhile (fun c => c ≠ sep)).reverse
    some (l.take (l.length - after.length - 1), after)
  else none

/-- Go `parseHost`: bracketed IPv6 literals need a closing bracket and a valid
optional port after it; otherwise everything from the last colon on must be a
valid optional port; finally the host's percent-escapes are validated. -/
def parseHost (host : List Char) : Option (List Char) :=
  match host with
  | '[' :: _ =>
    match splitAtLast ']' host with
    | none => none
    | some (_, afterBracket) =>
      if validOptionalPort (match afterBracket with
          | [] => []
          | l => l) then
        if percentOkHost host then some host else none
      else none
  | _ =>
    match splitAtLast ':' host with
    | some (_, after) =>
      if validOptionalPort (':' :: after) then
        if percentOkHost host then some host else none
      else none
    | none => if percentOkHost host then some host else none

/-- Go `validUserinfo`: RFC 3986 `userinfo` characters. -/
def validUserinfo (s : List Char) : Bool :=
  s.all (fun c =>
    ('A' ≤ c && c ≤ 'Z') || ('a' ≤ c && c ≤ 'z') || ('0' ≤ c && c ≤ '9') ||
    c = '-' || c = '.' || c = '_' || c = ':' || c = '~' || c = '!' ||
    c = '$' || c = '&' || c = Char.ofNat 39 || c = '(' || c = ')' ||
    c = '*' || c = '+' || c = ',' || c = ';' || c = '=' || c = '%' || c = '@')

/-- Go `parseAuthority`: split userinfo at the last `@`, parse the host,
validate the userinfo's character set, then unescape the userinfo in
`encodeUserPassword` mode — username and password separately, cut at the
first `:` — which validates its percent-escapes (`%` must head two hex
digits; the `encodeHost`-only `%25` rule does not apply here).  Returns
`(user, host)`. -/
def parseAuthority (authority : List Char) : Option (List Char × List Char) :=
  match splitAtLast '@' authority with
  | none =>
    match parseHost authority with
    | some h => some ([], h)
    | none => none
  | some (userinfo, hostPart) =>
    match parseHost hostPart with
    | none => none
    | some h =>
      if validUserinfo userinfo then
        if userinfo.contains ':' then
          let uname := userinfo.takeWhile (fun c => c ≠ ':')
          let pword := (userinfo.dropWhile (fun c => c ≠ ':')).drop 1
          if percentOk uname && percentOk pword then some (userinfo, h)
          else none
        else
          if percentOk userinfo then some (userinfo, h) else none
      else none

def listLower (l : List Char) : List Char := l.map Char.toLower

/-- Go `strings.ToLower` (the inputs at issue are ASCII host names).
`String.map` does not reduce in the kernel, so the character mapping is
applied on the underlying character list instead. -/
def strToLower (s : String) : String := ⟨listLower s.data⟩

/-- Go `url.parse(rawURL, viaRequest := false)` after the fragment has been
split off.  `none` is a parse error. -/
def urlParseNoFrag (raw : List Char) : Option URL :=
  if containsCTL raw then none
  else if raw = ['*'] then some { emptyURL with path := "*" }
  else
    match getScheme raw with
    | none => none
    | some (schemeCs, rest0) =>
      let scheme := listLower schemeCs
      -- query split, with Go's trailing-"?" (ForceQuery) special case
      let (rest, rawQuery) :=
        if rest0 ≠ [] && rest0.getLast? = some '?' &&
            !(rest0.dropLast.contains '?') then
          (rest0.dropLast, ([] : List Char))
        else goSplit '?' true rest0
      -- `RawQuery` is stored as split off, unvalidated (Go performs no
      -- `unescape` on it during `Parse`)
      if rest.take 1 ≠ ['/'] && scheme ≠ [] then
        -- rootless path with a scheme: opaque-style URL, stored raw and
        -- returned without further validation
        some { emptyURL with
                scheme := ⟨scheme⟩, opaq := ⟨rest⟩, rawQuery := ⟨rawQuery⟩ }
      else if rest.take 1 ≠ ['/'] && scheme = [] &&
          ((goSplit '/' false rest).1.contains ':') then
        -- "first path segment in URL cannot contain colon"
        none
      else
        if (scheme ≠ [] || rest.take 3 ≠ ['/', '/', '/']) &&
            rest.take 2 = ['/', '/'] then
          let (authority, rest2) := goSplit '/' false (rest.drop 2)
          match parseAuthority authority with
          | none => none
          | some (user, host) =>
            if percentOk rest2 then
              some { scheme := ⟨scheme⟩, opaq := "", user := ⟨user⟩,
                     host := ⟨host⟩, path := ⟨rest2⟩,
                     rawQuery := ⟨rawQuery⟩, fragment := "" }
            else none
        else
          if percentOk rest then
            some { emptyURL with
                    scheme := ⟨scheme⟩, path := ⟨rest⟩, rawQuery := ⟨rawQuery⟩ }
          else none

/-- Go `url.Parse`: split off the fragment, parse the rest, validate the
fragment's escapes. -/
def urlParse (raw : String) : Option URL :=
  let (before, frag) := goSplit '#' true raw.data
  match urlParseNoFrag before with
  | none => none
  | some u =>
    if percentOk frag then some { u with fragment := ⟨frag⟩ } else none

/-- One iteration of the loop in `makeTargetMap`: if the entry's
`DefaultTarget` is non-empty and `url.Parse` succeeds, insert the parsed URL
under the entry's `Name` — verbatim, as in the source. -/
def targetMapStep (m : String → Option URL) (h : HostConfig) :
    String → Option URL :=
  if h.defaultTarget ≠ "" then
    match urlParse h.defaultTarget with
    | some u => fun k => if k = h.name then some u else m k
    | none => m
  else m

/-- Function `Service.makeTargetMap`: the Go map is modelled as its lookup function
(`none` = key absent), built by folding the insertions in entry order, so a
later entry with the same name overrides an earlier one, as for a Go map. -/
def makeTargetMap (hosts : List HostConfig) : String → Option URL :=
  hosts.foldl targetMapStep (fun _ => none)

/-! ### Director -/

/-- The request fields the Director touches: `req.Host` (the incoming Host
header) and `req.URL` (the outgoing URL). -/
structure Request where
  host : String
  url : URL
deriving DecidableEq

/-- The `Director` closure from `StartServer`: lowercase `req.Host`, look it
up in the target map; on a hit overwrite the outgoing URL's scheme and host
with the target's; otherwise leave the request as it is.  (The source also
logs the host name; logging is outside the model.) -/
def director (targetMap : String → Option URL) (req : Request) : Request :=
  let hostName := strToLower req.host
  match targetMap hostName with
  | some target =>
    { req with url := { req.url with scheme := target.scheme, host := target.host } }
  | none => req

/-! ### TLS Material Loader (`Service.loadTLSConfig`) -/

/-- A loaded certificate is identified by the file pair it came from;
`tls.LoadX509KeyPair` itself (disk+parsing) is the oracle argument below. -/
def Cert := String × String
deriving instance DecidableEq for Cert

/-- Fixed TLS policy constants of `loadTLSConfig` (named after the Go
`crypto/tls` identifiers). -/
def tlsMinVersion : String := "VersionTLS12"

def tlsCurvePreferences : List String := ["CurveP521", "CurveP384", "CurveP256"]

def tlsCipherSuites : List String :=
  ["TLS_ECDHE_ECDSA_WITH_AES_128_GCM_SHA256",
   "TLS_ECDHE_RSA_WITH_AES_128_GCM_SHA256",
   "TLS_ECDHE_ECDSA_WITH_AES_256_GCM_SHA384",
   "TLS_ECDHE_RSA_WITH_AES_256_GCM_SHA384",
   "TLS_ECDHE_ECDSA_WITH_CHACHA20_POLY1305",
   "TLS_ECDHE_RSA_WITH_CHACHA20_POLY1305"]

structure TLSConfig where
  minVersion : String
  curvePreferences : List String
  cipherSuites : List String
  certificates : List Cert
deriving DecidableEq

/-- The eligibility test of the loop in `loadTLSConfig`:
`h.EnableTLS && h.TLSCertFile != "" && h.TLSKeyFile != ""`. -/
def tlsEligible (h : HostConfig) : Bool :=
  h.enableTLS && h.tlsCertFile ≠ "" && h.tlsKeyFile ≠ ""

/-- The warning emitted for a host whose key pair fails to load. -/
def certWarning (hostName : String) : String :=
  "Load certificate for " ++ hostName ++ " failed\n"

/-- Loop of `loadTLSConfig` over the host list, accumulating loaded
certificates and emitted warnings.  `loadPair cert key` models
`tls.LoadX509KeyPair`: `some c` on success, `none` on failure. -/
def loadTLSLoop (loadPair : String → String → Option Cert)
    (acc : List Cert × List String) : List HostConfig → List Cert × List String
  | [] => acc
  | h :: rest =>
    if tlsEligible h then
      match loadPair h.tlsCertFile h.tlsKeyFile with
      | some c => loadTLSLoop loadPair (acc.1 ++ [c], acc.2) rest
      | none => loadTLSLoop loadPair (acc.1, acc.2 ++ [certWarning h.name]) rest
    else loadTLSLoop loadPair acc rest

/-- Function `Service.loadTLSConfig`: returns the TLS policy plus the warnings emitted
to the frontend.  It has no error path — a bad pair only warns and is
skipped. -/
def loadTLSConfig (loadPair : String → String → Option Cert)
    (hosts : List HostConfig) : TLSConfig × List String :=
  let (certs, warns) := loadTLSLoop loadPair ([], []) hosts
  (⟨tlsMinVersion, tlsCurvePreferences, tlsCipherSuites, certs⟩, warns)

/-! ### Server startup (`StartServer`, `startHttpServer`, `startTlsServer`)

Each of the two startup goroutines is embedded as the sequence of observable
events it performs, in program order.  The bind oracle is `Option String`:
`none` means `net.Listen`/`tls.Listen` succeeded, `some e` that it failed
with error text `e`.  The serve loop itself (`http.Server.Serve`) appears as
a single `serveLoop` event: everything after it belongs to the background
serving phase, which `StartServer` does not wait for. -/

inductive Ev where
  | bindAttempt
  | bindOk
  | bindFail (msg : String)
  | reportError (msg : String)
  | setRunning (flag : Bool)
  | done
  | serveLoop
deriving DecidableEq

/-- Trace of `startHttpServer`: build the server, `net.Listen`; on failure
report the error and signal the wait group; on success set
`httpServerRunning = true`, signal the wait group, then enter `Serve`. -/
def httpServerTrace (bind : Option String) : List Ev :=
  match bind with
  | some e => [Ev.bindAttempt, Ev.bindFail e, Ev.reportError e, Ev.done]
  | none => [Ev.bindAttempt, Ev.bindOk, Ev.setRunning true, Ev.done,
             Ev.serveLoop]

/-- Trace of `startTlsServer`: when `loadTLSConfig` produced no certificate,
set `tlsServerRunning = false`, signal the wait group and return without any
bind attempt; otherwise behave like the HTTP path with `tls.Listen`. -/
def tlsServerTrace (certs : List Cert) (bind : Option String) : List Ev :=
  match certs with
  | [] => [Ev.setRunning false, Ev.done]
  | _ :: _ =>
    match bind with
    | some e => [Ev.bindAttempt, Ev.bindFail e, Ev.reportError e, Ev.done]
    | none => [Ev.bindAttempt, Ev.bindOk, Ev.setRunning true, Ev.done,
               Ev.serveLoop]

/-- Events a goroutine performs before signalling the wait group
(`wg.Done()`): the part of its trace `StartServer`'s barrier waits for. -/
def beforeDone : List Ev → List Ev
  | [] => []
  | Ev.done :: _ => []
  | e :: t => e :: beforeDone t

/-- Events after the wait-group signal: the background serving phase. -/
def afterDone : List Ev → List Ev
  | [] => []
  | Ev.done :: t => t
  | _ :: t => afterDone t

/-- Number of `wg.Done()` signals in a trace. -/
def countDone : List Ev → Nat
  | [] => 0
  | Ev.done :: t => countDone t + 1
  | _ :: t => countDone t

/-- Replay the `setRunning` writes of a trace over a protocol's running flag.
A fresh `Service` starts with both flags `false`. -/
def runningAfter (t : List Ev) : Bool :=
  t.foldl (fun b e => match e with | Ev.setRunning v => v | _ => b) false

/-- A trace prefix in which the goroutine's bind attempt has reached a
determined outcome: bound, failed, or skipped (the TLS zero-certificate
path, which records its outcome as `setRunning false`). -/
def bindResolved (l : List Ev) : Bool :=
  l.any (fun e =>
    match e with
    | Ev.bindOk => true
    | Ev.bindFail _ => true
    | Ev.setRunning b => !b
    | _ => false)

/-- Does the event report an error to the frontend? -/
def isReportEv : Ev → Bool
  | Ev.reportError _ => true
  | _ => false

/-- Is the event a bind attempt? -/
def isBindAttemptEv : Ev → Bool
  | Ev.bindAttempt => true
  | _ => false

structure StartOutcome where
  httpRunning : Bool
  tlsRunning : Bool
  ret : Bool
deriving DecidableEq

/-- Function `Service.StartServer`: build the target map and the shared proxy (modelled
by `makeTargetMap` and `director`), spawn both startup goroutines, wait on the
two-participant wait group, and return `httpServerRunning || tlsServerRunning`.
The flags it reads are the ones set before each goroutine's `wg.Done()` —
the serve loops keep running in the background. -/
def StartServer (loadPair : String → String → Option Cert)
    (hosts : List HostConfig) (httpBind tlsBind : Option String) :
    StartOutcome :=
  let certs := (loadTLSConfig loadPair hosts).1.certificates
  let h := runningAfter (beforeDone (httpServerTrace httpBind))
  let t := runningAfter (beforeDone (tlsServerTrace certs tlsBind))
  ⟨h, t, h || t⟩

/-! ### Shutdown (`ShutdownServer`) -/

/-- Lifecycle state of an `http.Server` that was created. -/
inductive SrvState where
  | live
  | closed
deriving DecidableEq

/-- Model of Go `http.Server.Shutdown(context.Background())`: shutting down a
live server closes it and may return a listener-close error (the oracle
`errLive`); with a background (never-cancelled) context, shutting down an
already-shut-down server returns nil.  Returns `(error, new state)`. -/
def goShutdown (errLive : Option String) : SrvState → Option String × SrvState
  | SrvState.live => (errLive, SrvState.closed)
  | SrvState.closed => (none, SrvState.closed)

/-- The fields of `Service` that `ShutdownServer` reads or writes.
`httpServer`/`tlsServer` are `nil` (`none`) until the corresponding start
goroutine has created them; the source never resets them to `nil`. -/
structure SvcShutView where
  httpServer : Option SrvState
  tlsServer : Option SrvState
  httpRunning : Bool
  tlsRunning : Bool
deriving DecidableEq

/-- Detached goroutines fired by the lifecycle functions. -/
inductive HostsTask where
  | removeHostsFileRecord
  | addHostsFileRecord
deriving DecidableEq

structure ShutdownOutcome where
  svc : SvcShutView
  /-- The `emitErrorToFrontend` calls made synchronously by the shutdown logic. -/
  reports : List String
  /-- Detached tasks spawned by the call (their own reports are delivered
  later, by `resolveTasks`). -/
  spawned : List HostsTask
deriving DecidableEq

/-- Function `Service.ShutdownServer`: for each non-nil server, call `Shutdown`, report
its error if any, and clear the running flag; then spawn the detached
hosts-file de-registration goroutine — unconditionally, whether or not
anything was running. -/
def shutdownServer (errHttp errTls : Option String) (s : SvcShutView) :
    ShutdownOutcome :=
  let (s1, r1) :=
    match s.httpServer with
    | some st =>
      let (e, st2) := goShutdown errHttp st
      ({ s with httpServer := some st2, httpRunning := false }, e.toList)
    | none => (s, [])
  let (s2, r2) :=
    match s1.tlsServer with
    | some st =>
      let (e, st2) := goShutdown errTls st
      ({ s1 with tlsServer := some st2, tlsRunning := false }, e.toList)
    | none => (s1, [])
  ⟨s2, r1 ++ r2, [HostsTask.removeHostsFileRecord]⟩

/-- What a detached task reports to the frontend when it eventually runs:
`removeHostsFileRecord`'s error, if the hosts-file edit fails (`deregErr`),
is forwarded via `emitErrorToFrontend`. -/
def resolveTask (deregErr : Option String) : HostsTask → List String
  | HostsTask.removeHostsFileRecord => deregErr.toList
  | HostsTask.addHostsFileRecord => deregErr.toList

def resolveTasks (deregErr : Option String) (ts : List HostsTask) :
    List String :=
  ts.foldl (fun acc t => acc ++ resolveTask deregErr t) []

/-- A `Service` on which no server was ever created: both server pointers are
nil and both flags false. -/
def emptySvc : SvcShutView := ⟨none, none, false, false⟩

/-! ### Error handler (`ErrorHandler`) and `net/http` content sniffing

The handler calls `w.WriteHeader(502)` and writes the HTML body without
setting a Content-Type, so `net/http` sniffs one from the first write
(`http.DetectContentType`).  The sniffer's HTML signature table is embedded
from Go `net/http/sniff.go`; the handler's body always begins with `<div `,
which the `<DIV` signature matches, so the remaining (unreachable) signature
groups of the sniffer are summarised by its documented
`application/octet-stream` fallback. -/

/-- Go `htmlSig` matching: uppercase letters in the signature match the data
byte masked with 0xDF (case-insensitively); any other signature byte matches
exactly; the byte after the signature must be a space or `>`. -/
def sigMatch : List Char → List Char → Bool
  | [], d =>
    match d with
    | c :: _ => c = ' ' || c = '>'
    | [] => false
  | s :: ss, c :: cs =>
    (if 'A' ≤ s && s ≤ 'Z' then Char.ofNat (c.toNat &&& 0xDF) = s else c = s) &&
      sigMatch ss cs
  | _ :: _, [] => false

/-- The HTML signatures of `sniffSignatures` (Go `net/http/sniff.go`). -/
def htmlSigs : List String :=
  ["<!DOCTYPE HTML", "<HTML", "<HEAD", "<SCRIPT", "<IFRAME", "<H1", "<DIV",
   "<FONT", "<TABLE", "<A", "<STYLE", "<TITLE", "<B", "<BODY", "<BR", "<P",
   "<!--"]

/-- Leading whitespace skipped by `DetectContentType`
(`"\t\n\x0c\r "`). -/
def sniffTrim (l : List Char) : List Char :=
  l.dropWhile (fun c =>
    c = '\t' || c = '\n' || c = Char.ofNat 12 || c = '\r' || c = ' ')

/-- Go `http.DetectContentType`, restricted to its HTML signature group, on
the first 512 bytes of the data. -/
def detectContentType (body : String) : String :=
  let d := sniffTrim (body.data.take 512)
  if htmlSigs.any (fun sig => sigMatch sig.data d) then
    "text/html; charset=utf-8"
  else
    "application/octet-stream"

/-- The HTML body built by `ErrorHandler` via `fmt.Sprintf`. -/
def badGatewayHtml (errMsg : String) : String :=
  "<div style=\"text-align: center\"><h2>Bad Gateway</h2><p>" ++ errMsg ++
    "</p>"

structure HTTPResponse where
  status : Nat
  contentType : String
  body : String
deriving DecidableEq

/-- The `ErrorHandler` closure from `StartServer`, applied to one request's
forwarding error: status 502 via `WriteHeader`, the formatted HTML body via
`Write`, and the Content-Type `net/http` attaches by sniffing that body.  It
is a pure function of the single request's error, shared state untouched. -/
def errorHandler (errMsg : String) : HTTPResponse :=
  let body := badGatewayHtml errMsg
  ⟨502, detectContentType body, body⟩

/-! ### `hostsFile.WriteHostsFile` -/

/-- One generated line of the loop body in `WriteHostsFile`. -/
def hostsLine (domain : String) : String :=
  "127.0.0.1 " ++ domain ++ " # Auto generated by local proxy\n"

/-- The in-memory buffer `WriteHostsFile` accumulates:
`bytes.NewBufferString("\n")` followed by one generated line per domain.
`bytes.Buffer.WriteString` never returns an error (Go documentation), so the
loop's error branch is dead code. -/
def writeHostsBuffer (domains : List String) : String :=
  domains.foldl (fun acc d => acc ++ hostsLine d) "\n"

structure WriteHostsOutcome where
  /-- The returned `error` (`none` = nil). -/
  result : Option String
  /-- Content of `/etc/hosts` after the call. -/
  hostsFileContent : String
  /-- Content of the local `bytes.Buffer` when the function returns. -/
  buffer : String
deriving DecidableEq

/-- Function `hostsFile.WriteHostsFile`: open `/etc/hosts` with
`O_APPEND|O_WRONLY` (the oracle `openErr` is the outcome), return the error
on failure; otherwise build the buffer in memory and return nil.  No write to
the opened file ever happens — the buffer is never flushed to it. -/
def WriteHostsFile (openErr : Option String) (hostsFileContent : String)
    (domains : List String) : WriteHostsOutcome :=
  match openErr with
  | some e => ⟨some e, hostsFileContent, ""⟩
  | none => ⟨none, hostsFileContent, writeHostsBuffer domains⟩

/-! ### Concrete inputs used by counterexamples and witnesses -/

/-- A well-behaved entry: lowercase name, valid absolute target. -/
def exGoodHost : HostConfig :=
  ⟨"a.test", "http://127.0.0.1:9001", false, "", ""⟩

/-- A concrete request addressed to `exGoodHost` (mixed-case Host header). -/
def exReq : Request :=
  ⟨"A.tesT", ⟨"https", "", "", "a.test", "/some/path", "q=1", ""⟩⟩

/-- A concrete request whose host matches no registry key. -/
def exReqMiss : Request :=
  ⟨"other.example", ⟨"http", "", "", "other.example", "/p", "", ""⟩⟩

/-! ## Theorems -/

/-- Claim C2:  The Director lowercases the request's Host and looks it up in
the Target Registry; on a hit it replaces exactly the outgoing URL's scheme
and host with the target's scheme and host (the record update leaves every
other field of the request and of its URL unchanged); on a miss the request
is returned entirely unmodified. -/
theorem director_rewrite (hosts : List HostConfig) (req : Request) :
    (∀ target, makeTargetMap hosts (strToLower req.host) = some target →
        director (makeTargetMap hosts) req =
          { req with
              url := { req.url with
                        scheme := target.scheme, host := target.host } }) ∧
    (makeTargetMap hosts (strToLower req.host) = none →
        director (makeTargetMap hosts) req = req) := by
  constructor
  · intro target ht
    simp [director, ht]
  · intro ht
    simp [director, ht]

/-- Witness for C2: a matching request is rewritten to the target's scheme
and host with path and query intact, a non-matching one passes through. -/
theorem director_rewrite_witness :
    director (makeTargetMap [exGoodHost]) exReq =
      ⟨"A.tesT", ⟨"http", "", "", "127.0.0.1:9001", "/some/path", "q=1", ""⟩⟩ ∧
    director (makeTargetMap [exGoodHost]) exReqMiss = exReqMiss := by
  constructor
  · rw [(director_rewrite [exGoodHost] exReq).1
      ⟨"http", "", "", "127.0.0.1:9001", "", "", ""⟩ (by decide)]
    decide
  · exact (director_rewrite [exGoodHost] exReqMiss).2 (by decide)

theorem loadTLSLoop_spec (lp : String → String → Option Cert) :
    ∀ (hosts : List HostConfig) (acc : List Cert × List String),
      loadTLSLoop lp acc hosts =
        (acc.1 ++ hosts.filterMap
            (fun h => if tlsEligible h then lp h.tlsCertFile h.tlsKeyFile
                      else none),
         acc.2 ++ (hosts.filter
            (fun h => tlsEligible h && (lp h.tlsCertFile h.tlsKeyFile).isNone)).map
              (fun h => certWarning h.name)) := by
  intro hosts
  induction hosts with
  | nil => intro acc; simp [loadTLSLoop]
  | cons h t ih =>
    intro acc
    by_cases he : tlsEligible h
    · cases hl : lp h.tlsCertFile h.tlsKeyFile with
      | some c => simp [loadTLSLoop, he, hl, ih]
      | none => simp [loadTLSLoop, he, hl, ih]
    · simp [loadTLSLoop, he, ih]

theorem tls_eligible_count (lp : String → String → Option Cert) :
    ∀ hosts : List HostConfig,
      (hosts.filterMap
          (fun h => if tlsEligible h then lp h.tlsCertFile h.tlsKeyFile
                    else none)).length
        + (hosts.filter
            (fun h => tlsEligible h &&
              (lp h.tlsCertFile h.tlsKeyFile).isNone)).length
        = (hosts.filter (fun h => tlsEligible h)).length := by
  intro hosts
  induction hosts with
  | nil => simp
  | cons h t ih =>
    by_cases he : tlsEligible h
    · cases hl : lp h.tlsCertFile h.tlsKeyFile with
      | some c => simp [he, hl, List.filterMap_cons]; omega
      | none => simp [he, hl, List.filterMap_cons]; omega
    · simp [he, List.filterMap_cons, ih]

/-- Claim C3:  The TLS Material Loader never errors: over any host list and any
outcome of `tls.LoadX509KeyPair` (the oracle `lp`), with `N` eligible entries
(`enableTLS` and both file paths non-empty) of which `M` fail to load, the
resulting certificate set has exactly `N - M` certificates and exactly the
`M` warnings are emitted, one naming each failed host, in order.
(`loadTLSConfig` is total and has no error result at all — failures only
warn.) -/
theorem loadTLSConfig_partial_failure (lp : String → String → Option Cert)
    (hosts : List HostConfig) :
    (loadTLSConfig lp hosts).1.certificates.length
        = (hosts.filter (fun h => tlsEligible h)).length
          - (hosts.filter (fun h => tlsEligible h &&
              (lp h.tlsCertFile h.tlsKeyFile).isNone)).length ∧
    (loadTLSConfig lp hosts).2
        = (hosts.filter (fun h => tlsEligible h &&
            (lp h.tlsCertFile h.tlsKeyFile).isNone)).map
              (fun h => certWarning h.name) ∧
    (loadTLSConfig lp hosts).2.length
        = (hosts.filter (fun h => tlsEligible h &&
            (lp h.tlsCertFile h.tlsKeyFile).isNone)).length := by
  have hspec := loadTLSLoop_spec lp hosts ([], [])
  have hcount := tls_eligible_count lp hosts
  unfold loadTLSConfig
  rw [hspec]
  refine ⟨?_, by simp, by simp⟩
  simp only [List.nil_append]
  omega

/-- Claim C4:  Whenever the loaded certificate set is empty, the TLS startup
goroutine leaves `tlsServerRunning = false`, performs no bind attempt and
reports no error, while `httpServerRunning` after `StartServer` is exactly
the HTTP bind outcome (`none` = the listen succeeded). -/
theorem startServer_no_certs_skips_tls (lp : String → String → Option Cert)
    (hosts : List HostConfig) (httpBind tlsBind : Option String)
    (hcert : (loadTLSConfig lp hosts).1.certificates = []) :
    (StartServer lp hosts httpBind tlsBind).tlsRunning = false ∧
    ((tlsServerTrace (loadTLSConfig lp hosts).1.certificates tlsBind).any
        isBindAttemptEv) = false ∧
    ((tlsServerTrace (loadTLSConfig lp hosts).1.certificates tlsBind).any
        isReportEv) = false ∧
    (StartServer lp hosts httpBind tlsBind).httpRunning = httpBind.isNone := by
  rw [StartServer, hcert]
  cases httpBind with
  | none =>
    exact ⟨rfl, rfl, rfl, rfl⟩
  | some e =>
    exact ⟨rfl, rfl, rfl, rfl⟩

/-- Witness for C4 at a concrete certificate-free configuration. -/
theorem startServer_no_certs_skips_tls_witness :
    (StartServer (fun _ _ => none) [] none none).tlsRunning = false ∧
    ((tlsServerTrace
        (loadTLSConfig (fun _ _ => none) []).1.certificates none).any
        isBindAttemptEv) = false ∧
    ((tlsServerTrace
        (loadTLSConfig (fun _ _ => none) []).1.certificates none).any
        isReportEv) = false ∧
    (StartServer (fun _ _ => none) [] none none).httpRunning
      = (none : Option String).isNone :=
  startServer_no_certs_skips_tls (fun _ _ => none) [] none none rfl

/-- Claim C5:  `StartServer` returns `true` exactly when at least one of the
two protocols ended up running at return time, and `false` exactly when both
flags are `false` (both bind attempts failed or were skipped). -/
theorem startServer_ret_iff (lp : String → String → Option Cert)
    (hosts : List HostConfig) (httpBind tlsBind : Option String) :
    ((StartServer lp hosts httpBind tlsBind).ret = true ↔
      ((StartServer lp hosts httpBind tlsBind).httpRunning = true ∨
        (StartServer lp hosts httpBind tlsBind).tlsRunning = true)) ∧
    ((StartServer lp hosts httpBind tlsBind).ret = false ↔
      ((StartServer lp hosts httpBind tlsBind).httpRunning = false ∧
        (StartServer lp hosts httpBind tlsBind).tlsRunning = false)) := by
  simp only [StartServer]
  constructor
  · simp [Bool.or_eq_true]
  · simp [Bool.or_eq_false_iff]

/-- Witness for C5: with both binds succeeding the return value is `true`. -/
theorem startServer_ret_iff_witness :
    (StartServer (fun _ _ => none) [exGoodHost] none none).ret = true :=
  ((startServer_ret_iff (fun _ _ => none) [exGoodHost] none none).1).mpr
    (Or.inl (by decide))

/-- Claim C6:  Each of the two startup goroutines signals the two-participant
wait group exactly once; before the signal its bind attempt has reached a
determined outcome (bound, failed, or skipped) and the blocking serve loop
has not been entered; everything after the signal is only the serve loop;
and the flags `StartServer` reads at the barrier are exactly the ones written
before each goroutine's signal — `StartServer` therefore returns after both
bind outcomes are determined, without waiting on either serve loop. -/
theorem startServer_barrier (lp : String → String → Option Cert)
    (hosts : List HostConfig) (httpBind tlsBind : Option String) :
    countDone (httpServerTrace httpBind) = 1 ∧
    countDone (tlsServerTrace (loadTLSConfig lp hosts).1.certificates tlsBind)
      = 1 ∧
    bindResolved (beforeDone (httpServerTrace httpBind)) = true ∧
    bindResolved (beforeDone
      (tlsServerTrace (loadTLSConfig lp hosts).1.certificates tlsBind))
      = true ∧
    ((beforeDone (httpServerTrace httpBind)).contains Ev.serveLoop) = false ∧
    ((beforeDone (tlsServerTrace (loadTLSConfig lp hosts).1.certificates
        tlsBind)).contains Ev.serveLoop) = false ∧
    (afterDone (httpServerTrace httpBind) = [] ∨
      afterDone (httpServerTrace httpBind) = [Ev.serveLoop]) ∧
    (afterDone (tlsServerTrace (loadTLSConfig lp hosts).1.certificates tlsBind)
        = [] ∨
      afterDone (tlsServerTrace (loadTLSConfig lp hosts).1.certificates
        tlsBind) = [Ev.serveLoop]) ∧
    (StartServer lp hosts httpBind tlsBind).httpRunning
      = runningAfter (beforeDone (httpServerTrace httpBind)) ∧
    (StartServer lp hosts httpBind tlsBind).tlsRunning
      = runningAfter (beforeDone
          (tlsServerTrace (loadTLSConfig lp hosts).1.certificates tlsBind)) := by
  cases hc : (loadTLSConfig lp hosts).1.certificates with
  | nil =>
    cases httpBind <;> cases tlsBind <;>
      simp [StartServer, hc, httpServerTrace, tlsServerTrace, countDone,
        beforeDone, afterDone, bindResolved, runningAfter, isReportEv,
        isBindAttemptEv]
  | cons c cs =>
    cases httpBind <;> cases tlsBind <;>
      simp [StartServer, hc, httpServerTrace, tlsServerTrace, countDone,
        beforeDone, afterDone, bindResolved, runningAfter, isReportEv,
        isBindAttemptEv]

/-- Claim C7:  `ShutdownServer` is idempotent: after a first call (with any
shutdown-error outcomes), a second call emits no error report from the
shutdown logic — re-shutting an already-shut-down `http.Server` with a
background context returns nil — and leaves both running flags `false`.
(Each call also re-fires the detached hosts-file de-registration task, whose
own asynchronous report is the same on every call and is modelled separately
in `spawned`.) -/
theorem shutdownServer_idempotent (s : SvcShutView)
    (e1 e2 e3 e4 : Option String)
    (hinvH : s.httpRunning = true → s.httpServer.isSome = true)
    (hinvT : s.tlsRunning = true → s.tlsServer.isSome = true) :
    (shutdownServer e3 e4 (shutdownServer e1 e2 s).svc).reports = [] ∧
    (shutdownServer e3 e4 (shutdownServer e1 e2 s).svc).svc.httpRunning
      = false ∧
    (shutdownServer e3 e4 (shutdownServer e1 e2 s).svc).svc.tlsRunning
      = false := by
  rcases s with ⟨(_ | (_ | _)), (_ | (_ | _)), hr, tr⟩ <;>
    simp_all [shutdownServer, goShutdown]

/-- Witness for C7: a service with both servers live and both flags set,
shut down twice, the first shutdown even failing on the HTTP side. -/
theorem shutdownServer_idempotent_witness :
    (shutdownServer none none
        (shutdownServer (some "listener close failed") none
          ⟨some SrvState.live, some SrvState.live, true, true⟩).svc).reports
      = [] ∧
    (shutdownServer none none
        (shutdownServer (some "listener close failed") none
          ⟨some SrvState.live, some SrvState.live, true, true⟩).svc).svc.httpRunning
      = false ∧
    (shutdownServer none none
        (shutdownServer (some "listener close failed") none
          ⟨some SrvState.live, some SrvState.live, true, true⟩).svc).svc.tlsRunning
      = false :=
  shutdownServer_idempotent ⟨some SrvState.live, some SrvState.live, true, true⟩
    (some "listener close failed") none none none (fun _ => rfl) (fun _ => rfl)

/-- Claim C8 counterexample:  On a `Service` with no server running,
`ShutdownServer` still spawns the detached hosts-file de-registration task,
and when that hosts-file edit fails its error *is* reported to the
notification channel — contradicting "performs no shutdown actions and
reports nothing to the notification channel". -/
theorem shutdownServer_empty_spawns_dereg :
    (shutdownServer none none emptySvc).spawned
      = [HostsTask.removeHostsFileRecord] ∧
    resolveTasks (some "open /etc/hosts: permission denied")
        (shutdownServer none none emptySvc).spawned
      = ["open /etc/hosts: permission denied"] := by
  exact ⟨rfl, rfl⟩

/-- Claim C8 (amended):  Calling `ShutdownServer` on a `Service` on which no
server is running performs no server-shutdown action and emits no report
from the shutdown logic itself (the state is returned unchanged), but it
still spawns the detached hosts-file de-registration task, whose failure, if
any, is reported to the notification channel. -/
theorem shutdownServer_nothing_running (s : SvcShutView)
    (e1 e2 : Option String) (hh : s.httpServer = none)
    (ht : s.tlsServer = none) :
    (shutdownServer e1 e2 s).svc = s ∧
    (shutdownServer e1 e2 s).reports = [] ∧
    (shutdownServer e1 e2 s).spawned = [HostsTask.removeHostsFileRecord] ∧
    ∀ d : Option String,
      resolveTasks d (shutdownServer e1 e2 s).spawned = d.toList := by
  refine ⟨?_, ?_, ?_, ?_⟩ <;>
    simp [shutdownServer, hh, ht, resolveTasks, resolveTask]

/-- Witness for C8 (amended) at the concrete empty service. -/
theorem shutdownServer_nothing_running_witness :
    (shutdownServer none none emptySvc).svc = emptySvc ∧
    (shutdownServer none none emptySvc).reports = [] ∧
    (shutdownServer none none emptySvc).spawned
      = [HostsTask.removeHostsFileRecord] ∧
    ∀ d : Option String,
      resolveTasks d (shutdownServer none none emptySvc).spawned = d.toList :=
  shutdownServer_nothing_running emptySvc none none rfl rfl

/-- Claim C9:  For every forwarding error, the client receives status 502 with
Content-Type `text/html` (the exact header `net/http` sniffs from the body is
`text/html; charset=utf-8`), and a body containing the `<h2>Bad Gateway</h2>`
heading and the underlying error's text.  `errorHandler` is a pure function
of the single failing request's error, so the failure affects only that one
request. -/
theorem errorHandler_bad_gateway (errMsg : String) :
    (errorHandler errMsg).status = 502 ∧
    (errorHandler errMsg).contentType = "text/html; charset=utf-8" ∧
    (∃ rest, (errorHandler errMsg).contentType = "text/html" ++ rest) ∧
    (∃ s t, (errorHandler errMsg).body.data
        = s ++ "<h2>Bad Gateway</h2>".data ++ t) ∧
    (∃ s t, (errorHandler errMsg).body.data = s ++ errMsg.data ++ t) := by
  refine ⟨rfl, rfl, ⟨"; charset=utf-8", rfl⟩, ?_, ?_⟩
  · exact ⟨"<div style=\"text-align: center\">".data,
      "<p>".data ++ errMsg.data ++ "</p>".data, rfl⟩
  · exact ⟨"<div style=\"text-align: center\"><h2>Bad Gateway</h2><p>".data,
      "</p>".data, rfl⟩

theorem writeHostsBuffer_data (domains : List String) : ∀ a : String,
    (domains.foldl (fun acc d => acc ++ hostsLine d) a).data
      = a.data ++ (domains.map (fun d => (hostsLine d).data)).flatten := by
  induction domains with
  | nil => intro a; simp
  | cons d t ih =>
    intro a
    simp only [List.foldl_cons, List.map_cons, List.flatten_cons, ih,
      String.data_append, List.append_assoc]

/-- Claim C10:  For every hosts-file content and non-empty domain list, when
opening succeeds `WriteHostsFile` returns nil while leaving the hosts file's
content unchanged: the `127.0.0.1 <domain> # Auto generated by local proxy`
lines are accumulated only in the in-memory buffer (shown here in full),
which is never written to the opened file. -/
theorem writeHostsFile_no_write (content : String) (domains : List String)
    (hne : domains ≠ []) :
    (WriteHostsFile none content domains).result = none ∧
    (WriteHostsFile none content domains).hostsFileContent = content ∧
    (WriteHostsFile none content domains).buffer.data
      = '\n' :: (domains.map (fun d => (hostsLine d).data)).flatten := by
  refine ⟨rfl, rfl, ?_⟩
  show (writeHostsBuffer domains).data = _
  rw [writeHostsBuffer, writeHostsBuffer_data]
  rfl

/-- Witness for C10 at a concrete non-empty domain list. -/
theorem writeHostsFile_no_write_witness :
    (WriteHostsFile none "127.0.0.1 localhost\n" ["a.test"]).result = none ∧
    (WriteHostsFile none "127.0.0.1 localhost\n" ["a.test"]).hostsFileContent
      = "127.0.0.1 localhost\n" ∧
    (WriteHostsFile none "127.0.0.1 localhost\n" ["a.test"]).buffer.data
      = '\n' :: ((["a.test"] : List String).map
          (fun d => (hostsLine d).data)).flatten :=
  writeHostsFile_no_write "127.0.0.1 localhost\n" ["a.test"] (by decide)

end LocalProxy
